import Mathlib

/-! Shallow embedding of the CPU clock frequency calibration engine of
`Library/OcCpuLib/FrequencyDetect.c` (OcSupportPkg).  Hardware primitives
(PCI configuration-space reads, port I/O reads, MMIO reads, CPUID leaves,
RDTSC) are modelled as fields of an explicit environment `Env`; the `STATIC`
result caches of the C functions are passed as explicit state.  Machine
integers are `Nat`, with `% 2 ^ w` applied wherever the C code reads or
computes a `w`-bit value.  The busy-wait loop of the calibrator is given
explicit fuel (a field of the environment); exhausting the fuel yields
`Option.none`, standing for the C loop not having returned. -/

/-- Modelled from the spec: the expected chipset vendor identifier compared
against 16-bit PCI vendor-id reads.  The constant `V_ICH_PCI_VENDOR_ID` lives
in the repository header `IndustryStandard/GenericIch.h`, which is not under
`src/`; the spec only calls it "the expected chipset vendor". -/
def V_ICH_PCI_VENDOR_ID : Nat := 0x8086

/-- Modelled from the spec: the ACPI-enable bit of the legacy (LPC)
controller's ACPI control register ("the legacy controller's ACPI-enable bit
is set in its control register").  Exact bit position is irrelevant to the
claims. -/
def B_ICH_LPC_ACPI_CNTL_ACPI_EN : Nat := 0x80

/-- Modelled from the spec: the base mask applied to the legacy controller's
16-bit base-address register ("16-bit base-address register & base mask"). -/
def B_ICH_LPC_ACPI_BASE_BAR : Nat := 0xFF80

/-- Modelled from the spec: the ACPI-enable bit of the PMC controller's ACPI
control register. -/
def B_ICH_PMC_ACPI_CNTL_ACPI_EN : Nat := 0x80

/-- Modelled from the spec: the base mask applied to the PMC controller's
16-bit ACPI base-address register. -/
def B_ICH_PMC_ACPI_BASE_BAR : Nat := 0xFF80

/-- Modelled from the spec: the enable bit of the PMC controller's secondary
(BAR2) base-address register. -/
def B_ICH_PMC_BAR2_BASE_BAR_EN : Nat := 0x1

/-- Modelled from the spec: the base mask applied to the PMC controller's
secondary (BAR2) base-address register. -/
def B_ICH_PMC_BAR2_BASE_BAR : Nat := 0xFFE0

/-- Modelled from the spec: the fixed PM1-timer register offset added to the
masked base address. -/
def R_ACPI_PM1_TMR : Nat := 0x8

/-- Nominal ACPI PM timer rate in Hz (`V_ACPI_TMR_FREQUENCY`); the spec gives
3,579,545 ticks per second. -/
def V_ACPI_TMR_FREQUENCY : Nat := 3579545

/-- CPUID leaf-0 EBX signature value for the expected (Intel) vendor. -/
def CPUID_VENDOR_INTEL : Nat := 0x756E6547

/-- CPUID leaf-0 EBX signature value for the alternate (AMD) vendor. -/
def CPUID_VENDOR_AMD : Nat := 0x68747541

/-- Index of the TSC/crystal-ratio CPUID leaf (`CPUID_TIME_STAMP_COUNTER`). -/
def CPUID_TIME_STAMP_COUNTER : Nat := 0x15

/-- Index of the processor-frequency CPUID leaf
(`CPUID_PROCESSOR_FREQUENCY`). -/
def CPUID_PROCESSOR_FREQUENCY : Nat := 0x16

/-- Modelled from the spec: known model code (Skylake mobile/desktop and
friends) mapped by the crystal fallback table.  The numeric model codes live
in the repository header `ProcessorInfo.h`, absent from `src/`. -/
def CPU_MODEL_SKYLAKE : Nat := 0x4E

/-- Modelled from the spec: Skylake desktop model code. -/
def CPU_MODEL_SKYLAKE_DT : Nat := 0x5E

/-- Modelled from the spec: Kaby Lake model code. -/
def CPU_MODEL_KABYLAKE : Nat := 0x8E

/-- Modelled from the spec: Kaby Lake desktop model code. -/
def CPU_MODEL_KABYLAKE_DT : Nat := 0x9E

/-- Modelled from the spec: Denverton (server) model code. -/
def CPU_MODEL_DENVERTON : Nat := 0x5F

/-- Modelled from the spec: Goldmont (low-power Atom) model code. -/
def CPU_MODEL_GOLDMONT : Nat := 0x5C

/-- Modelled from the spec: client crystal clock, 24 MHz exactly. -/
def CLIENT_ART_CLOCK_SOURCE : Nat := 24000000

/-- Modelled from the spec: server crystal clock, 25 MHz. -/
def SERVER_ART_CLOCK_SOURCE : Nat := 25000000

/-- Modelled from the spec: low-power Atom crystal clock, 19.2 MHz. -/
def ATOM_ART_CLOCK_SOURCE : Nat := 19200000

/-- Modelled from the spec: final fallback crystal clock, 24 MHz ("the most
common value among supported processors to date"). -/
def DEFAULT_ART_CLOCK_SOURCE : Nat := 24000000

/-- Fixed behaviour of the hardware primitives consumed by
`FrequencyDetect.c`.  Each field records the value a particular read in the C
source would return; reads at fixed configuration-space addresses are one
field each, while the port-I/O timer reads and the TSC reads (whose results
evolve over the measurement) are sequences indexed by occurrence order. -/
structure Env where
  /-- `PciRead16 (PCI_ICH_LPC_ADDRESS (0))`: LPC vendor id. -/
  lpcVendorId : Nat
  /-- `PciRead8 (PCI_ICH_LPC_ADDRESS (R_ICH_LPC_ACPI_CNTL))`. -/
  lpcAcpiCntl : Nat
  /-- `PciRead16 (PCI_ICH_LPC_ADDRESS (R_ICH_LPC_ACPI_BASE))`. -/
  lpcAcpiBase : Nat
  /-- `PciRead16 (PCI_ICH_PMC_ADDRESS (0))`: PMC vendor id. -/
  pmcVendorId : Nat
  /-- `PciRead8 (PCI_ICH_PMC_ADDRESS (R_ICH_PMC_ACPI_CNTL))`. -/
  pmcAcpiCntl : Nat
  /-- `PciRead16 (PCI_ICH_PMC_ADDRESS (R_ICH_PMC_ACPI_BASE))`. -/
  pmcAcpiBase : Nat
  /-- `PciRead16 (PCI_ICH_PMC_ADDRESS (R_ICH_PMC_BAR2_BASE))`. -/
  pmcBar2Base : Nat
  /-- `MmioRead32` of the AMD ACPI MMIO PM-timer-block register. -/
  amdTmrBlock : Nat
  /-- Successive `IoRead32 (TimerAddr)` results: index 0 and 1 are the
  advancing-timer sanity reads, index 2 the measurement start read, and
  indices 3, 4, ... the busy-loop reads. -/
  tick : Nat → Nat
  /-- Successive `AsmReadTsc ()` results: index 0 before the busy loop,
  index 1 after it. -/
  tsc : Nat → Nat
  /-- Fuel bounding the busy-wait loop iterations observed under this fixed
  hardware behaviour. -/
  fuel : Nat
  /-- CPUID leaf-0 EAX: maximal supported leaf index. -/
  maxId : Nat
  /-- CPUID leaf-0 EBX: vendor signature word. -/
  cpuVendorEbx : Nat
  /-- `AsmReadMsr64 (MSR_IA32_TSC_ADJUST)`: logged only, never used. -/
  tscAdjust : Nat
  /-- CPUID leaf-0x15 EAX: ratio denominator. -/
  cpuidDenominatorEax : Nat
  /-- CPUID leaf-0x15 EBX: ratio numerator. -/
  cpuidNumeratorEbx : Nat
  /-- CPUID leaf-0x15 ECX: directly reported crystal frequency (may be 0). -/
  cpuidARTFrequencyEcx : Nat
  /-- CPUID leaf-1 EAX: version information (model/stepping fields). -/
  cpuidVerEax : Nat
  /-- CPUID leaf-0x16 EAX: processor base frequency in MHz (bits 15:0). -/
  cpuidFrequencyEax : Nat

/-- The three `STATIC` caches of `FrequencyDetect.c`, passed explicitly:
`ARTFrequency` and `CPUFrequencyFromART` of
`InternalCalcluateARTFrequencyIntel`, and `TSCFrequency` of
`InternalCalculateTSCFromPMTimer`. -/
structure Caches where
  artFrequency : Nat
  cpuFrequencyFromART : Nat
  tscFrequency : Nat
deriving DecidableEq, Repr

/-- Intel probe phase of `InternalGetPmTimerAddr` (lines 54-92): the ordered
LPC / PMC-ACPI / PMC-BAR2 discovery chain.  `typeProvided` models whether the
optional `Type` output slot is non-NULL; the second component is the string
the C code would have stored through it (`none` when the slot is absent). -/
def pmTimerIntelPhase (env : Env) (typeProvided : Bool) : Nat × Option String :=
  if env.lpcVendorId % 2 ^ 16 = V_ICH_PCI_VENDOR_ID then
    if (env.lpcAcpiCntl % 2 ^ 8) &&& B_ICH_LPC_ACPI_CNTL_ACPI_EN ≠ 0 then
      (((env.lpcAcpiBase % 2 ^ 16) &&& B_ICH_LPC_ACPI_BASE_BAR) + R_ACPI_PM1_TMR,
        if typeProvided then some "LPC" else none)
    else if env.pmcVendorId % 2 ^ 16 = V_ICH_PCI_VENDOR_ID then
      if (env.pmcAcpiCntl % 2 ^ 8) &&& B_ICH_PMC_ACPI_CNTL_ACPI_EN ≠ 0 then
        (((env.pmcAcpiBase % 2 ^ 16) &&& B_ICH_PMC_ACPI_BASE_BAR) + R_ACPI_PM1_TMR,
          if typeProvided then some "PMC ACPI" else none)
      else if (env.pmcBar2Base % 2 ^ 16) &&& B_ICH_PMC_BAR2_BASE_BAR_EN ≠ 0 then
        (((env.pmcBar2Base % 2 ^ 16) &&& B_ICH_PMC_BAR2_BASE_BAR) + R_ACPI_PM1_TMR,
          if typeProvided then some "PMC BAR2" else none)
      else
        (0, if typeProvided then some "Invalid INTEL PMC" else none)
    else
      (0, if typeProvided then some "Unknown INTEL" else none)
  else
    (0, if typeProvided then some "Failure" else none)

/-- Embeds `InternalGetPmTimerAddr` (lines 32-115): the Intel probe phase
followed by the AMD MMIO fallback (lines 97-112), which runs exactly when the
Intel phase left `TimerAddr` at 0.  The initial `*Type = "Failure"` store of
lines 42-44 survives only when no later branch overwrites the tag. -/
def InternalGetPmTimerAddr (env : Env) (typeProvided : Bool) : Nat × Option String :=
  if (pmTimerIntelPhase env typeProvided).1 = 0 then
    if env.cpuVendorEbx % 2 ^ 32 = CPUID_VENDOR_AMD then
      (env.amdTmrBlock % 2 ^ 32, if typeProvided then some "AMD" else none)
    else pmTimerIntelPhase env typeProvided
  else pmTimerIntelPhase env typeProvided

/-- Embeds the tick-delta computation of the calibrator's busy loop
(lines 182-197): plain difference when no overflow, `0xFFFFFF - t0 + t1` for
a presumed 24-bit wraparound, `0xFFFFFFFF - t0 + t1` for a 32-bit one.  The
C arithmetic is `UINT32`; the two wraparound expressions are evaluated over
`Int` and reduced `% 2 ^ 32` to mirror it (for in-range inputs they are
already non-negative). -/
def acpiTicksDelta (t0 t1 : Nat) : Nat :=
  if t0 ≤ t1 then
    t1 - t0
  else if t0 - t1 ≤ 0xFFFFFF then
    (((0xFFFFFF : Int) - t0 + t1) % (2 ^ 32 : Int)).toNat
  else
    (((0xFFFFFFFF : Int) - t0 + t1) % (2 ^ 32 : Int)).toNat

/-- EDK2 `BaseLib` primitive: 64-bit × 32-bit multiply with a 64-bit result
(the product is truncated modulo `2 ^ 64`, as the underlying C multiply is). -/
def MultU64x32 (a b : Nat) : Nat := a * b % 2 ^ 64

/-- EDK2 `BaseLib` primitive: 64-bit ÷ 32-bit unsigned division, truncating
toward zero. -/
def DivU64x32 (a b : Nat) : Nat := a / b

/-- Modelled from the spec: `MultThenDivU64x64x32` of the repository's
`OcMiscLib` (its `Math.c` is not under `src/`).  The spec mandates a 64×64
multiply carried at ≥ 96-bit intermediate precision before the 32-bit
division, so the model is the exact product divided exactly, with the 64-bit
result register truncation applied. -/
def MultThenDivU64x64x32 (m1 m2 d : Nat) : Nat := m1 * m2 / d % 2 ^ 64

/-- Embeds the `UINT64` difference `Tsc1 - Tsc0` (wrapping subtraction). -/
def tscDelta64 (t0 t1 : Nat) : Nat := (((t1 : Int) - t0) % (2 ^ 64 : Int)).toNat

/-- Embeds the calibrator's final frequency computation (lines 211-213):
`DivU64x32 (MultU64x32 (Tsc1 - Tsc0, V_ACPI_TMR_FREQUENCY), AcpiTicksDelta)`. -/
def tscFrequencyCalc (tscDelta ticksDelta : Nat) : Nat :=
  DivU64x32 (MultU64x32 tscDelta V_ACPI_TMR_FREQUENCY) ticksDelta

/-- Embeds the do-while busy loop of lines 174-202: reads the timer at
successive indices `i`, computes the tick delta from the loop-start reading
`tick0`, and stops at the first delta reaching `target`.  Returns that final
delta, or `none` when `fuel` iterations did not reach the target (the C loop
would still be spinning). -/
def busyLoop (tick : Nat → Nat) (tick0 target i fuel : Nat) : Option Nat :=
  match fuel with
  | 0 => none
  | Nat.succ fuel2 =>
    if acpiTicksDelta tick0 (tick i % 2 ^ 32) < target then
      busyLoop tick tick0 target (i + 1) fuel2
    else
      some (acpiTicksDelta tick0 (tick i % 2 ^ 32))

/-- Embeds the measurement body of `InternalCalculateTSCFromPMTimer`
(lines 144-222, the interior of the `TSCFrequency == 0` block): locate the
PM timer with a NULL `Type` slot, check that it is advancing, and run the
100 ms busy-wait measurement; `some 0` is the failure outcome (timer missing
or not advancing, the static stays 0), `none` the loop still spinning. -/
def calibratorMeasure (env : Env) : Option Nat :=
  if (InternalGetPmTimerAddr env false).1 ≠ 0 then
    if env.tick 0 % 2 ^ 32 ≠ env.tick 1 % 2 ^ 32 then
      match busyLoop env.tick (env.tick 2 % 2 ^ 32) (V_ACPI_TMR_FREQUENCY / 10) 3 env.fuel with
      | none => none
      | some delta =>
        some (tscFrequencyCalc (tscDelta64 (env.tsc 0 % 2 ^ 64) (env.tsc 1 % 2 ^ 64)) delta)
    else some 0
  else some 0

/-- Embeds `InternalCalculateTSCFromPMTimer` (lines 117-226).  `cache` is the
incoming value of the `STATIC UINT64 TSCFrequency`; the result pairs the
returned frequency with the cache value left behind.  `Recalculate` zeroes
the cache first (the `if recalculate then 0 else cache` value below); a
non-zero cache short-circuits without touching hardware; otherwise the
measurement of `calibratorMeasure` runs and its result is cached. -/
def InternalCalculateTSCFromPMTimer (env : Env) (cache : Nat) (recalculate : Bool) :
    Option (Nat × Nat) :=
  if (if recalculate then 0 else cache) = 0 then
    match calibratorMeasure env with
    | none => none
    | some freq => some (freq, freq)
  else some ((if recalculate then 0 else cache), (if recalculate then 0 else cache))

/-- Embeds the model computation of line 283:
`(UINT8) Bits.Model | (UINT8) (Bits.ExtendedModelId << 4U)` over the leaf-1
EAX layout (model in bits 7:4, extended model id in bits 19:16). -/
def cpuModel (eax : Nat) : Nat :=
  ((eax >>> 4) % 16) ||| ((((eax >>> 16) % 16) <<< 4) % 2 ^ 8)

/-- Embeds the `switch (Model)` fallback table of lines 287-300; an
unrecognized model leaves the crystal frequency at 0. -/
def artTableLookup (model : Nat) : Nat :=
  if model = CPU_MODEL_SKYLAKE ∨ model = CPU_MODEL_SKYLAKE_DT ∨
      model = CPU_MODEL_KABYLAKE ∨ model = CPU_MODEL_KABYLAKE_DT then
    CLIENT_ART_CLOCK_SOURCE
  else if model = CPU_MODEL_DENVERTON then
    SERVER_ART_CLOCK_SOURCE
  else if model = CPU_MODEL_GOLDMONT then
    ATOM_ART_CLOCK_SOURCE
  else 0

/-- Embeds the crystal value of lines 278-300: the directly reported leaf
value when non-zero, otherwise the model-table lookup (0 when that also
misses). -/
def artFrequencyInitial (env : Env) : Nat :=
  if 0 < env.cpuidARTFrequencyEcx % 2 ^ 32 then env.cpuidARTFrequencyEcx % 2 ^ 32
  else artTableLookup (cpuModel (env.cpuidVerEax % 2 ^ 32))

/-- Embeds lines 313-333: derive the crystal from the calibrated TSC
frequency via `MultThenDivU64x64x32 (tscF, den, num)` and, when that is
non-zero, take the derived base frequency from the processor-frequency
leaf (`ProcessorBaseFrequency * 1,000,000`); on a zero derivation the
derived base keeps its incoming value `cpu0`.  Result:
`(ARTFrequency, CPUFrequencyFromART)` after the block. -/
def deriveFromTsc (env : Env) (cpu0 den num tscF : Nat) : Nat × Nat :=
  (MultThenDivU64x64x32 tscF den num,
    if 0 < MultThenDivU64x64x32 tscF den num then
      MultU64x32 (env.cpuidFrequencyEax % 2 ^ 32 % 2 ^ 16) 1000000
    else cpu0)

/-- Embeds lines 336-353 together with the cache write-back: given crystal
candidate `artIn` and derived-base candidate `cpuIn`, apply the 24 MHz
default when the crystal is still unresolved, then compute the base as
`crystal * num / den` when it is still unset; the triple is the resolver's
`(return value, *CPUFrequency, caches)` with the given TSC cache. -/
def ratioResult (artIn cpuIn num den tscCache : Nat) : Nat × Nat × Caches :=
  ⟨if artIn = 0 then DEFAULT_ART_CLOCK_SOURCE else artIn,
    if cpuIn = 0 then
      MultThenDivU64x64x32 (if artIn = 0 then DEFAULT_ART_CLOCK_SOURCE else artIn) num den
    else cpuIn,
    ⟨if artIn = 0 then DEFAULT_ART_CLOCK_SOURCE else artIn,
      if cpuIn = 0 then
        MultThenDivU64x64x32 (if artIn = 0 then DEFAULT_ART_CLOCK_SOURCE else artIn) num den
      else cpuIn,
      tscCache⟩⟩

/-- Embeds `InternalCalcluateARTFrequencyIntel` (lines 228-370; the source's
spelling of the name is kept).  `c` carries the incoming `STATIC` caches; the
result is `(ARTFrequency return value, *CPUFrequency out-parameter, caches
left behind)`, or `none` when the nested calibrator call would not return.
`if recalculate then 0 else …` is the value of each `STATIC` after the reset
of lines 254-257; the TSC cache is threaded through the nested
`InternalCalculateTSCFromPMTimer (Recalculate)` call of line 312. -/
def InternalCalcluateARTFrequencyIntel (env : Env) (c : Caches) (recalculate : Bool) :
    Option (Nat × Nat × Caches) :=
  if (if recalculate then 0 else c.artFrequency) = 0 then
    if env.cpuVendorEbx % 2 ^ 32 = CPUID_VENDOR_INTEL ∧
        CPUID_TIME_STAMP_COUNTER ≤ env.maxId % 2 ^ 32 then
      if 0 < env.cpuidDenominatorEax % 2 ^ 32 ∧ 0 < env.cpuidNumeratorEbx % 2 ^ 32 then
        if artFrequencyInitial env = 0 ∧ CPUID_PROCESSOR_FREQUENCY ≤ env.maxId % 2 ^ 32 then
          match InternalCalculateTSCFromPMTimer env c.tscFrequency recalculate with
          | none => none
          | some (tscF, tscCache2) =>
            some (ratioResult
              (deriveFromTsc env (if recalculate then 0 else c.cpuFrequencyFromART)
                (env.cpuidDenominatorEax % 2 ^ 32) (env.cpuidNumeratorEbx % 2 ^ 32) tscF).1
              (deriveFromTsc env (if recalculate then 0 else c.cpuFrequencyFromART)
                (env.cpuidDenominatorEax % 2 ^ 32) (env.cpuidNumeratorEbx % 2 ^ 32) tscF).2
              (env.cpuidNumeratorEbx % 2 ^ 32) (env.cpuidDenominatorEax % 2 ^ 32) tscCache2)
        else
          some (ratioResult (artFrequencyInitial env)
            (if recalculate then 0 else c.cpuFrequencyFromART)
            (env.cpuidNumeratorEbx % 2 ^ 32) (env.cpuidDenominatorEax % 2 ^ 32)
            c.tscFrequency)
      else
        some (artFrequencyInitial env, (if recalculate then 0 else c.cpuFrequencyFromART),
          ⟨artFrequencyInitial env, (if recalculate then 0 else c.cpuFrequencyFromART),
            c.tscFrequency⟩)
    else
      some (0, (if recalculate then 0 else c.cpuFrequencyFromART),
        ⟨0, (if recalculate then 0 else c.cpuFrequencyFromART), c.tscFrequency⟩)
  else
    some ((if recalculate then 0 else c.artFrequency),
      (if recalculate then 0 else c.cpuFrequencyFromART),
      ⟨(if recalculate then 0 else c.artFrequency),
        (if recalculate then 0 else c.cpuFrequencyFromART), c.tscFrequency⟩)

/-- Embeds `OcGetTSCFrequency` (lines 372-393): resolve the crystal pair
first (non-forced); if the derived CPU frequency is zero, fall back to the
PM-timer calibrator (non-forced).  The result pairs the returned frequency
with the caches left behind. -/
def OcGetTSCFrequency (env : Env) (c : Caches) : Option (Nat × Caches) :=
  match InternalCalcluateARTFrequencyIntel env c false with
  | none => none
  | some (_, cpuFrequency, c1) =>
    if cpuFrequency = 0 then
      match InternalCalculateTSCFromPMTimer env c1.tscFrequency false with
      | none => none
      | some (v, t2) => some (v, ⟨c1.artFrequency, c1.cpuFrequencyFromART, t2⟩)
    else some (cpuFrequency, c1)

/-- Concrete hardware behaviour used by witnesses: an LPC-matched Intel
platform whose PM timer advances 400,000 ticks per read and whose TSC
advances 1,000,000 counts over the measurement window, with the ratio leaf
reporting 1/1 and no direct crystal value. -/
def envBase : Env :=
  ⟨0x8086, 0x80, 0x1800, 0, 0, 0, 0, 0,
    fun i => i * 400000, fun i => if i = 0 then 0 else 1000000, 5,
    0x16, CPUID_VENDOR_INTEL, 0, 1, 1, 0, 0, 0⟩

/-- Hardware behaviour refuting C5 as stated: the legacy vendor probe fails,
the CPU reports the alternate (AMD) vendor, and the AMD MMIO PM-timer-block
window reads as all-zero. -/
def envC5 : Env :=
  { envBase with lpcVendorId := 0, cpuVendorEbx := CPUID_VENDOR_AMD, amdTmrBlock := 0 }

/-- Hardware behaviour for the C5 witness: no probe path applies at all. -/
def envC5b : Env := { envBase with lpcVendorId := 0, cpuVendorEbx := 0 }

/-- Hardware behaviour for the C9 witness: both the legacy (LPC) path and the
PMC path are simultaneously available. -/
def envC9w : Env :=
  { envBase with pmcVendorId := 0x8086, pmcAcpiCntl := 0x80, pmcAcpiBase := 0x2000 }

/-- Hardware behaviour refuting C3 as stated: the ratio leaf reports a direct
crystal frequency but a zero denominator, so the resolver leaves the derived
base frequency at 0 while returning a non-zero crystal frequency. -/
def envC3 : Env :=
  { envBase with maxId := 0x15, cpuidARTFrequencyEcx := 24000000, cpuidDenominatorEax := 0 }

/-- Hardware behaviour for the C4 witness: the resolver succeeds through the
direct leaf value with ratio 2/1 (derived base 48 MHz), while the PM-timer
path would also succeed. -/
def envC4w : Env :=
  { envBase with maxId := 0x15, cpuidARTFrequencyEcx := 24000000, cpuidNumeratorEbx := 2 }

/-- Hardware behaviour for the C6 witness: like `envBase` but the
processor-frequency leaf reports a 100 MHz base frequency. -/
def envC6w : Env := { envBase with cpuidFrequencyEax := 100 }

/-- Hardware behaviour for the C8 witness: a Skylake model code (leaf-1 EAX
0x400E0, model 0x4E) with no directly reported crystal frequency. -/
def envC8w : Env := { envBase with maxId := 0x15, cpuidVerEax := 0x400E0 }

/-- Claim C1 counterexample: the busy-loop tick-delta computation yields 0x1F,
not 0x20, on both wraparound inputs given by the claim (the code adds the
register maximum rather than the register modulus, an off-by-one against the
true modular distance). -/
theorem c1_counterexample :
    acpiTicksDelta 0x00FFFFF0 0x00000010 ≠ 0x20 ∧
    acpiTicksDelta 0xFFFFFFF0 0x00000010 ≠ 0x20 := by
  decide

/-- Claim C1 (amended): for every pair of timer readings, if `end ≥ start`
the tick delta is the plain difference `end - start`; for the 24-bit
wraparound inputs (start = 0x00FFFFF0, end = 0x00000010) the delta is 0x1F;
for the 32-bit wraparound inputs (start = 0xFFFFFFF0, end = 0x00000010) the
delta is 0x1F; and for the non-wrapped inputs (start = 100, end = 500) the
delta is 400. -/
theorem c1_tick_delta :
    (∀ t0 t1 : Nat, t0 ≤ t1 → acpiTicksDelta t0 t1 = t1 - t0) ∧
    acpiTicksDelta 0x00FFFFF0 0x00000010 = 0x1F ∧
    acpiTicksDelta 0xFFFFFFF0 0x00000010 = 0x1F ∧
    acpiTicksDelta 100 500 = 400 := by
  refine ⟨fun t0 t1 h => ?_, by decide, by decide, by decide⟩
  simp [acpiTicksDelta, h]

/-- Witness for C1: the no-overflow clause of `c1_tick_delta` applied at the
concrete readings start = 100, end = 500. -/
theorem c1_tick_delta_witness : (100 : Nat) ≤ 500 ∧ acpiTicksDelta 100 500 = 500 - 100 :=
  ⟨by decide, c1_tick_delta.1 100 500 (by decide)⟩

/-- Claim C2 counterexample: for the 64-bit TSC delta `2 ^ 63` and measured
tick delta 357954, the calibrator's frequency computation does not equal the
exact truncated quotient — the 64×32 multiply wraps modulo `2 ^ 64`, so the
claimed absence of intermediate overflow over the full 64-bit range fails. -/
theorem c2_counterexample :
    tscFrequencyCalc (2 ^ 63) 357954 ≠ 2 ^ 63 * V_ACPI_TMR_FREQUENCY / 357954 := by
  decide

/-- Claim C2 (amended): the calibrator's final frequency computation equals
the round-toward-zero quotient (TSC delta × 3,579,545) ÷ tick delta whenever
the product fits in 64 bits (TSC delta ≤ 5,153,960,840,615 or so), and in
particular equals 3,000,000,000 × 3,579,545 ÷ 357,954 on the claimed concrete
input; for larger TSC deltas the 64-bit multiply wraps. -/
theorem c2_frequency_calc :
    (∀ d t : Nat, d * V_ACPI_TMR_FREQUENCY < 2 ^ 64 →
      tscFrequencyCalc d t = d * V_ACPI_TMR_FREQUENCY / t) ∧
    tscFrequencyCalc 3000000000 357954 = 3000000000 * 3579545 / 357954 := by
  refine ⟨fun d t h => ?_, by decide⟩
  unfold tscFrequencyCalc MultU64x32 DivU64x32
  rw [Nat.mod_eq_of_lt h]

/-- Witness for C2: the no-overflow clause of `c2_frequency_calc` applied at
the claim's concrete measurement (TSC delta 3,000,000,000 over 357,954
ticks). -/
theorem c2_frequency_calc_witness :
    3000000000 * V_ACPI_TMR_FREQUENCY < 2 ^ 64 ∧
    tscFrequencyCalc 3000000000 357954 = 3000000000 * V_ACPI_TMR_FREQUENCY / 357954 :=
  ⟨by decide, c2_frequency_calc.1 3000000000 357954 (by decide)⟩

/-- Claim C5 counterexample: with the legacy vendor probe failing, an AMD
vendor signature, and an all-zero AMD MMIO window, the locator returns
address 0 but writes the tag "AMD", not "Failure". -/
theorem c5_counterexample :
    InternalGetPmTimerAddr envC5 true = (0, some "AMD") ∧
    (some "AMD" : Option String) ≠ some "Failure" := by
  decide

/-- Claim C5 (amended): when no discovery path succeeds the locator returns
address 0; the tag is "Failure" exactly in the case where the legacy vendor
probe does not match and the CPU vendor is not the alternate (AMD) vendor —
when the CPU is the alternate vendor and its MMIO window reads all-zero, the
address is still 0 but the tag written is "AMD". -/
theorem c5_locator_failure (env : Env)
    (h1 : env.lpcVendorId % 2 ^ 16 ≠ V_ICH_PCI_VENDOR_ID) :
    (env.cpuVendorEbx % 2 ^ 32 ≠ CPUID_VENDOR_AMD →
      InternalGetPmTimerAddr env true = (0, some "Failure")) ∧
    (env.cpuVendorEbx % 2 ^ 32 = CPUID_VENDOR_AMD → env.amdTmrBlock % 2 ^ 32 = 0 →
      InternalGetPmTimerAddr env true = (0, some "AMD")) := by
  have hphase : pmTimerIntelPhase env true = (0, some "Failure") := by
    unfold pmTimerIntelPhase
    rw [if_neg h1, if_pos rfl]
  constructor
  · intro h2
    unfold InternalGetPmTimerAddr
    rw [hphase, if_pos (show ((0 : Nat), (some "Failure" : Option String)).1 = 0 from rfl),
      if_neg h2]
  · intro h2 h3
    unfold InternalGetPmTimerAddr
    rw [hphase, if_pos (show ((0 : Nat), (some "Failure" : Option String)).1 = 0 from rfl),
      if_pos h2, h3, if_pos rfl]

/-- Witness for C5: `c5_locator_failure` applied to a platform where neither
the chipset probe nor the alternate-vendor fallback applies. -/
theorem c5_locator_failure_witness :
    InternalGetPmTimerAddr envC5b true = (0, some "Failure") :=
  (c5_locator_failure envC5b (by decide)).1 (by decide)

/-- Claim C9: whenever the legacy (LPC) vendor id matches and the legacy
ACPI-enable bit is set, the locator returns the address computed from the
legacy controller's base-address register with the "LPC" tag (the spec's
"legacy" tag), regardless of every PMC register value — in particular even
when the PMC path would also match. -/
theorem c9_legacy_priority (env : Env)
    (h1 : env.lpcVendorId % 2 ^ 16 = V_ICH_PCI_VENDOR_ID)
    (h2 : (env.lpcAcpiCntl % 2 ^ 8) &&& B_ICH_LPC_ACPI_CNTL_ACPI_EN ≠ 0) :
    InternalGetPmTimerAddr env true =
      (((env.lpcAcpiBase % 2 ^ 16) &&& B_ICH_LPC_ACPI_BASE_BAR) + R_ACPI_PM1_TMR,
        some "LPC") := by
  have hphase : pmTimerIntelPhase env true =
      (((env.lpcAcpiBase % 2 ^ 16) &&& B_ICH_LPC_ACPI_BASE_BAR) + R_ACPI_PM1_TMR,
        some "LPC") := by
    unfold pmTimerIntelPhase
    rw [if_pos h1, if_pos h2, if_pos rfl]
  have haddr : (pmTimerIntelPhase env true).1 ≠ 0 := by
    rw [hphase]
    show ((env.lpcAcpiBase % 2 ^ 16) &&& B_ICH_LPC_ACPI_BASE_BAR) + R_ACPI_PM1_TMR ≠ 0
    unfold R_ACPI_PM1_TMR
    omega
  unfold InternalGetPmTimerAddr
  rw [if_neg haddr]
  exact hphase

/-- Witness for C9: `c9_legacy_priority` applied to a platform where the LPC
and PMC paths are both simultaneously available. -/
theorem c9_legacy_priority_witness :
    InternalGetPmTimerAddr envC9w true = (0x1808, some "LPC") :=
  (c9_legacy_priority envC9w (by decide) (by decide)).trans (by decide)

/-- Claim C10: for every fixed hardware behaviour, the address returned by
the PM timer locator is the same whether the optional diagnostic tag slot is
supplied or passed as null; the slot only affects the tag component. -/
theorem c10_tag_slot_independence (env : Env) :
    (InternalGetPmTimerAddr env true).1 = (InternalGetPmTimerAddr env false).1 := by
  have hp : (pmTimerIntelPhase env true).1 = (pmTimerIntelPhase env false).1 := by
    unfold pmTimerIntelPhase
    split_ifs <;> rfl
  unfold InternalGetPmTimerAddr
  rw [hp]
  split_ifs <;> simp [hp]

/-- Helper: a non-zero cache makes the non-forced calibrator return the
cached pair without consulting the hardware environment at all. -/
theorem calibrator_cache_hit (env : Env) (cache : Nat) (hc : cache ≠ 0) :
    InternalCalculateTSCFromPMTimer env cache false = some (cache, cache) := by
  unfold InternalCalculateTSCFromPMTimer
  rw [if_neg (show ¬(if (false : Bool) = true then (0 : Nat) else cache) = 0 from by
    simpa using hc)]
  simp

/-- Helper: every pair the calibrator returns has equal components — the
returned frequency is exactly the cache value left behind. -/
theorem calibrator_fst_eq_snd (env : Env) (cache : Nat) (recalculate : Bool)
    (v c2 : Nat)
    (h : InternalCalculateTSCFromPMTimer env cache recalculate = some (v, c2)) :
    c2 = v := by
  unfold InternalCalculateTSCFromPMTimer at h
  by_cases h1 : (if recalculate then (0 : Nat) else cache) = 0
  · rw [if_pos h1] at h
    cases hm : calibratorMeasure env with
    | none => rw [hm] at h; exact absurd h (by simp)
    | some freq =>
      rw [hm] at h
      simp only [Option.some.injEq, Prod.mk.injEq] at h
      omega
  · rw [if_neg h1] at h
    simp only [Option.some.injEq, Prod.mk.injEq] at h
    omega

/-- Claim C7: under a fixed hardware behaviour, a second consecutive
non-forced calibration call returns exactly what the first returned (with
the same cache); and once a non-forced call has returned a non-zero
frequency, every later non-forced call returns that same value against any
hardware behaviour whatsoever — i.e. without re-measuring. -/
theorem c7_calibration_idempotent (env : Env) (cache v c2 : Nat)
    (h : InternalCalculateTSCFromPMTimer env cache false = some (v, c2)) :
    InternalCalculateTSCFromPMTimer env c2 false = some (v, c2) ∧
    (v ≠ 0 → ∀ env2 : Env, InternalCalculateTSCFromPMTimer env2 c2 false = some (v, c2)) := by
  have hvc : c2 = v := calibrator_fst_eq_snd env cache false v c2 h
  subst hvc
  refine ⟨?_, fun hv env2 => calibrator_cache_hit env2 c2 hv⟩
  by_cases hv : c2 = 0
  · subst hv
    by_cases hcc : cache = 0
    · subst hcc
      exact h
    · exfalso
      have hh := calibrator_cache_hit env cache hcc
      rw [h] at hh
      simp only [Option.some.injEq, Prod.mk.injEq] at hh
      exact hcc hh.1.symm
  · exact calibrator_cache_hit env c2 hv

/-- Witness for C7: `c7_calibration_idempotent` applied to the concrete
measurement on `envBase` (first call measures 8948862 Hz, the second call
returns it from the cache). -/
theorem c7_calibration_idempotent_witness :
    InternalCalculateTSCFromPMTimer envBase 0 false = some (8948862, 8948862) ∧
    InternalCalculateTSCFromPMTimer envBase 8948862 false = some (8948862, 8948862) :=
  ⟨by decide, (c7_calibration_idempotent envBase 0 8948862 8948862 (by decide)).1⟩

/-- Helper: the crystal component produced by the ratio branch is the 24 MHz
default when the incoming candidate is unresolved, the candidate itself
otherwise. -/
theorem ratioResult_fst (artIn cpuIn num den tscCache : Nat) :
    (ratioResult artIn cpuIn num den tscCache).1 =
      if artIn = 0 then DEFAULT_ART_CLOCK_SOURCE else artIn := rfl

/-- Helper: the crystal component produced by the ratio branch is never
zero (the 24 MHz default fills any unresolved value). -/
theorem ratioResult_fst_ne_zero (artIn cpuIn num den tscCache : Nat) :
    (ratioResult artIn cpuIn num den tscCache).1 ≠ 0 := by
  rw [ratioResult_fst]
  by_cases ha : artIn = 0
  · rw [if_pos ha]; decide
  · rw [if_neg ha]; exact ha

/-- Claim C3 counterexample: with a direct leaf crystal value of 24 MHz but
a zero ratio denominator, the resolver returns the pair (24,000,000, 0) —
crystal non-zero with derived base zero, so the pair is neither both-zero
nor both-non-zero. -/
theorem c3_pair_counterexample :
    InternalCalcluateARTFrequencyIntel envC3 ⟨0, 0, 0⟩ false =
      some (24000000, 0, ⟨24000000, 0, 0⟩) ∧
    ¬(((24000000 : Nat) = 0 ∧ (0 : Nat) = 0) ∨
      ((24000000 : Nat) ≠ 0 ∧ (0 : Nat) ≠ 0)) := by
  decide

/-- Claim C3 (amended): a non-zero derived base frequency implies a non-zero
crystal frequency, for every resolver call whose incoming cache pair
satisfies the same one-sided invariant (which the initial all-zero state
does); the converse fails — the crystal may be resolved alone, with derived
base 0, when the ratio leaf lacks a non-zero denominator or numerator. -/
theorem c3_base_implies_crystal (env : Env) (c : Caches) (recalculate : Bool)
    (hc : c.artFrequency = 0 → c.cpuFrequencyFromART = 0)
    (r cpu : Nat) (c2 : Caches)
    (h : InternalCalcluateARTFrequencyIntel env c recalculate = some (r, cpu, c2))
    (hcpu : cpu ≠ 0) : r ≠ 0 := by
  have hcpu0 : (if recalculate then (0 : Nat) else c.artFrequency) = 0 →
      (if recalculate then (0 : Nat) else c.cpuFrequencyFromART) = 0 := by
    cases recalculate
    · intro ha
      simpa using hc (by simpa using ha)
    · intro ha
      simp
  unfold InternalCalcluateARTFrequencyIntel at h
  by_cases h1 : (if recalculate then (0 : Nat) else c.artFrequency) = 0
  · rw [if_pos h1] at h
    by_cases h2 : env.cpuVendorEbx % 2 ^ 32 = CPUID_VENDOR_INTEL ∧
        CPUID_TIME_STAMP_COUNTER ≤ env.maxId % 2 ^ 32
    · rw [if_pos h2] at h
      by_cases h3 : 0 < env.cpuidDenominatorEax % 2 ^ 32 ∧
          0 < env.cpuidNumeratorEbx % 2 ^ 32
      · rw [if_pos h3] at h
        by_cases h4 : artFrequencyInitial env = 0 ∧
            CPUID_PROCESSOR_FREQUENCY ≤ env.maxId % 2 ^ 32
        · rw [if_pos h4] at h
          cases hcal : InternalCalculateTSCFromPMTimer env c.tscFrequency recalculate with
          | none =>
            rw [hcal] at h
            exact absurd h (by simp)
          | some p =>
            obtain ⟨tscF, tc⟩ := p
            rw [hcal] at h
            simp only [Option.some.injEq] at h
            have hr := congrArg (fun q : Nat × Nat × Caches => q.1) h
            simp only at hr
            rw [← hr]
            exact ratioResult_fst_ne_zero _ _ _ _ _
        · rw [if_neg h4] at h
          simp only [Option.some.injEq] at h
          have hr := congrArg (fun q : Nat × Nat × Caches => q.1) h
          simp only at hr
          rw [← hr]
          exact ratioResult_fst_ne_zero _ _ _ _ _
      · rw [if_neg h3] at h
        simp only [Option.some.injEq, Prod.mk.injEq] at h
        exact absurd (by rw [← h.2.1]; exact hcpu0 h1) hcpu
    · rw [if_neg h2] at h
      simp only [Option.some.injEq, Prod.mk.injEq] at h
      exact absurd (by rw [← h.2.1]; exact hcpu0 h1) hcpu
  · rw [if_neg h1] at h
    simp only [Option.some.injEq, Prod.mk.injEq] at h
    intro hr0
    exact h1 (h.1.trans hr0)

/-- Witness for C3: `c3_base_implies_crystal` applied to the fully resolved
pair measured on `envBase` from the empty caches. -/
theorem c3_base_implies_crystal_witness :
    InternalCalcluateARTFrequencyIntel envBase ⟨0, 0, 0⟩ false =
      some (8948862, 8948862, ⟨8948862, 8948862, 8948862⟩) ∧ (8948862 : Nat) ≠ 0 :=
  ⟨by decide,
    c3_base_implies_crystal envBase ⟨0, 0, 0⟩ false (fun _ => rfl) 8948862 8948862
      ⟨8948862, 8948862, 8948862⟩ (by decide) (by decide)⟩

/-- Claim C4: whenever the resolver's derived base frequency is non-zero the
orchestrator returns it unchanged (regardless of whether the PM-timer path
would also succeed); when it is zero the orchestrator returns whatever the
PM-timer calibrator returns — in particular 0 when that path also fails. -/
theorem c4_orchestrator_priority (env : Env) (c : Caches) (a b : Nat) (c1 : Caches)
    (h : InternalCalcluateARTFrequencyIntel env c false = some (a, b, c1)) :
    (b ≠ 0 → OcGetTSCFrequency env c = some (b, c1)) ∧
    (b = 0 → ∀ v t2, InternalCalculateTSCFromPMTimer env c1.tscFrequency false = some (v, t2) →
      OcGetTSCFrequency env c = some (v, ⟨c1.artFrequency, c1.cpuFrequencyFromART, t2⟩)) := by
  constructor
  · intro hb
    unfold OcGetTSCFrequency
    simp only [h]
    rw [if_neg hb]
  · intro hb v t2 h2
    subst hb
    unfold OcGetTSCFrequency
    simp only [h, if_true, h2]

/-- Witness for C4: `c4_orchestrator_priority` on a platform where the
resolver yields a 48 MHz derived base while the PM-timer path would also
succeed; the orchestrator returns the resolver's value. -/
theorem c4_orchestrator_priority_witness :
    OcGetTSCFrequency envC4w ⟨0, 0, 0⟩ = some (48000000, ⟨24000000, 48000000, 0⟩) :=
  (c4_orchestrator_priority envC4w ⟨0, 0, 0⟩ 24000000 48000000 ⟨24000000, 48000000, 0⟩
    (by decide)).1 (by decide)

/-- Claim C6 counterexample: on `envBase` the crystal is derived from the
calibrated TSC frequency and the processor-frequency leaf is readable
(maximal leaf 0x16) but reports 0, and the resolver returns the
ratio-computed base 8948862, not the leaf-reported value times 1,000,000
(which would be 0). -/
theorem c6_leaf_counterexample :
    InternalCalcluateARTFrequencyIntel envBase ⟨0, 0, 0⟩ false =
      some (8948862, 8948862, ⟨8948862, 8948862, 8948862⟩) ∧
    CPUID_PROCESSOR_FREQUENCY ≤ envBase.maxId % 2 ^ 32 ∧
    (8948862 : Nat) ≠ MultU64x32 (envBase.cpuidFrequencyEax % 2 ^ 32 % 2 ^ 16) 1000000 := by
  decide

/-- Claim C6 (amended): whenever the resolver derives a non-zero crystal
frequency from the calibrated TSC frequency and the processor-frequency
leaf reports a non-zero base frequency, the derived base frequency returned
is exactly that leaf value times 1,000,000 — never the ratio-computed one;
when the leaf reports zero the ratio-computed base is used instead. -/
theorem c6_leaf_precedence (env : Env) (c : Caches) (recalculate : Bool)
    (hart0 : (if recalculate then (0 : Nat) else c.artFrequency) = 0)
    (hvendor : env.cpuVendorEbx % 2 ^ 32 = CPUID_VENDOR_INTEL)
    (hmax : CPUID_PROCESSOR_FREQUENCY ≤ env.maxId % 2 ^ 32)
    (hinit : artFrequencyInitial env = 0)
    (hden : 0 < env.cpuidDenominatorEax % 2 ^ 32)
    (hnum : 0 < env.cpuidNumeratorEbx % 2 ^ 32)
    (tscF tscCache2 : Nat)
    (hcal : InternalCalculateTSCFromPMTimer env c.tscFrequency recalculate =
      some (tscF, tscCache2))
    (hart2 : MultThenDivU64x64x32 tscF (env.cpuidDenominatorEax % 2 ^ 32)
      (env.cpuidNumeratorEbx % 2 ^ 32) ≠ 0)
    (hleaf : env.cpuidFrequencyEax % 2 ^ 32 % 2 ^ 16 ≠ 0) :
    InternalCalcluateARTFrequencyIntel env c recalculate =
      some (MultThenDivU64x64x32 tscF (env.cpuidDenominatorEax % 2 ^ 32)
          (env.cpuidNumeratorEbx % 2 ^ 32),
        MultU64x32 (env.cpuidFrequencyEax % 2 ^ 32 % 2 ^ 16) 1000000,
        ⟨MultThenDivU64x64x32 tscF (env.cpuidDenominatorEax % 2 ^ 32)
            (env.cpuidNumeratorEbx % 2 ^ 32),
          MultU64x32 (env.cpuidFrequencyEax % 2 ^ 32 % 2 ^ 16) 1000000,
          tscCache2⟩) := by
  have hts : CPUID_TIME_STAMP_COUNTER ≤ env.maxId % 2 ^ 32 := le_trans (by decide) hmax
  have hpos : 0 < MultThenDivU64x64x32 tscF (env.cpuidDenominatorEax % 2 ^ 32)
      (env.cpuidNumeratorEbx % 2 ^ 32) := Nat.pos_of_ne_zero hart2
  have hmulne : MultU64x32 (env.cpuidFrequencyEax % 2 ^ 32 % 2 ^ 16) 1000000 ≠ 0 := by
    unfold MultU64x32
    have hlt : env.cpuidFrequencyEax % 2 ^ 32 % 2 ^ 16 < 2 ^ 16 :=
      Nat.mod_lt _ (by decide)
    have hsm : env.cpuidFrequencyEax % 2 ^ 32 % 2 ^ 16 * 1000000 < 2 ^ 64 := by
      have hb : (2 : Nat) ^ 16 * 1000000 < 2 ^ 64 := by decide
      have h2 : env.cpuidFrequencyEax % 2 ^ 32 % 2 ^ 16 * 1000000 ≤ 2 ^ 16 * 1000000 :=
        Nat.mul_le_mul_right 1000000 (le_of_lt hlt)
      omega
    rw [Nat.mod_eq_of_lt hsm]
    exact Nat.mul_ne_zero hleaf (by decide)
  unfold InternalCalcluateARTFrequencyIntel
  rw [if_pos hart0, if_pos ⟨hvendor, hts⟩, if_pos ⟨hden, hnum⟩, if_pos ⟨hinit, hmax⟩, hcal]
  simp only [deriveFromTsc, ratioResult, if_pos hpos, if_neg hart2, if_neg hmulne]

/-- Witness for C6: `c6_leaf_precedence` on a platform whose
processor-frequency leaf reports 100 MHz; the resolver returns base
100,000,000 Hz from the leaf, not the ratio-derived 8948862. -/
theorem c6_leaf_precedence_witness :
    InternalCalcluateARTFrequencyIntel envC6w ⟨0, 0, 0⟩ false =
      some (8948862, 100000000, ⟨8948862, 100000000, 8948862⟩) :=
  (c6_leaf_precedence envC6w ⟨0, 0, 0⟩ false (by decide) (by decide) (by decide) (by decide)
    (by decide) (by decide) 8948862 8948862 (by decide) (by decide) (by decide)).trans
    (by decide)

/-- Claim C8 counterexample: on `envBase` the model is unrecognized, the
leaf reports no direct crystal value, and both ratio fields are non-zero,
yet the resolver returns the TSC-derived crystal 8948862 rather than the
24 MHz default — the claimed "if and only if" fails in the forward
direction. -/
theorem c8_fallback_counterexample :
    InternalCalcluateARTFrequencyIntel envBase ⟨0, 0, 0⟩ false =
      some (8948862, 8948862, ⟨8948862, 8948862, 8948862⟩) ∧
    envBase.cpuidARTFrequencyEcx = 0 ∧
    artTableLookup (cpuModel (envBase.cpuidVerEax % 2 ^ 32)) = 0 ∧
    0 < envBase.cpuidDenominatorEax % 2 ^ 32 ∧
    0 < envBase.cpuidNumeratorEbx % 2 ^ 32 ∧
    (8948862 : Nat) ≠ 24000000 := by
  decide

/-- Claim C8 (amended): with no directly reported crystal value, a Skylake
model code yields exactly 24,000,000 Hz from the model table; an
unrecognized model yields crystal 0 when the ratio leaf lacks a non-zero
denominator or numerator, and yields the 24 MHz default when both are
non-zero and the processor-frequency leaf is unsupported (when that leaf is
supported, a successful TSC-based derivation takes precedence over the
default, as the counterexample shows). -/
theorem c8_fallback_table (env : Env) (c : Caches)
    (hart0 : c.artFrequency = 0)
    (hvendor : env.cpuVendorEbx % 2 ^ 32 = CPUID_VENDOR_INTEL)
    (hts : CPUID_TIME_STAMP_COUNTER ≤ env.maxId % 2 ^ 32)
    (hecx : env.cpuidARTFrequencyEcx % 2 ^ 32 = 0) :
    (cpuModel (env.cpuidVerEax % 2 ^ 32) = CPU_MODEL_SKYLAKE →
      ∀ r cpu c2, InternalCalcluateARTFrequencyIntel env c false = some (r, cpu, c2) →
        r = 24000000) ∧
    (artTableLookup (cpuModel (env.cpuidVerEax % 2 ^ 32)) = 0 →
      (env.cpuidDenominatorEax % 2 ^ 32 = 0 ∨ env.cpuidNumeratorEbx % 2 ^ 32 = 0) →
      ∀ r cpu c2, InternalCalcluateARTFrequencyIntel env c false = some (r, cpu, c2) →
        r = 0) ∧
    (artTableLookup (cpuModel (env.cpuidVerEax % 2 ^ 32)) = 0 →
      ¬ CPUID_PROCESSOR_FREQUENCY ≤ env.maxId % 2 ^ 32 →
      0 < env.cpuidDenominatorEax % 2 ^ 32 → 0 < env.cpuidNumeratorEbx % 2 ^ 32 →
      ∀ r cpu c2, InternalCalcluateARTFrequencyIntel env c false = some (r, cpu, c2) →
        r = 24000000) := by
  have hart0' : (if (false : Bool) = true then (0 : Nat) else c.artFrequency) = 0 := by
    simpa using hart0
  refine ⟨?_, ?_, ?_⟩
  · intro hm r cpu c2 hR
    have hinit : artFrequencyInitial env = CLIENT_ART_CLOCK_SOURCE := by
      unfold artFrequencyInitial
      rw [hecx, if_neg (lt_irrefl 0)]
      unfold artTableLookup
      rw [hm, if_pos (Or.inl rfl)]
    unfold InternalCalcluateARTFrequencyIntel at hR
    rw [if_pos hart0', if_pos ⟨hvendor, hts⟩, hinit] at hR
    by_cases hdn : 0 < env.cpuidDenominatorEax % 2 ^ 32 ∧ 0 < env.cpuidNumeratorEbx % 2 ^ 32
    · rw [if_pos hdn,
        if_neg (show ¬(CLIENT_ART_CLOCK_SOURCE = 0 ∧
          CPUID_PROCESSOR_FREQUENCY ≤ env.maxId % 2 ^ 32) from
            fun hx => absurd hx.1 (by decide))] at hR
      simp only [Option.some.injEq] at hR
      have hr := congrArg (fun q : Nat × Nat × Caches => q.1) hR
      simp only [ratioResult_fst] at hr
      rw [if_neg (show ¬ CLIENT_ART_CLOCK_SOURCE = 0 from by decide)] at hr
      exact hr.symm
    · rw [if_neg hdn] at hR
      simp only [Option.some.injEq, Prod.mk.injEq] at hR
      exact hR.1.symm
  · intro htab hdz r cpu c2 hR
    have hinit0 : artFrequencyInitial env = 0 := by
      unfold artFrequencyInitial
      rw [hecx, if_neg (lt_irrefl 0)]
      exact htab
    unfold InternalCalcluateARTFrequencyIntel at hR
    rw [if_pos hart0', if_pos ⟨hvendor, hts⟩,
      if_neg (show ¬(0 < env.cpuidDenominatorEax % 2 ^ 32 ∧
        0 < env.cpuidNumeratorEbx % 2 ^ 32) from by
          rcases hdz with hz | hz <;> omega)] at hR
    simp only [Option.some.injEq, Prod.mk.injEq] at hR
    rw [← hR.1]
    exact hinit0
  · intro htab hnot16 hden hnum r cpu c2 hR
    have hinit0 : artFrequencyInitial env = 0 := by
      unfold artFrequencyInitial
      rw [hecx, if_neg (lt_irrefl 0)]
      exact htab
    unfold InternalCalcluateARTFrequencyIntel at hR
    rw [if_pos hart0', if_pos ⟨hvendor, hts⟩, if_pos ⟨hden, hnum⟩,
      if_neg (show ¬(artFrequencyInitial env = 0 ∧
        CPUID_PROCESSOR_FREQUENCY ≤ env.maxId % 2 ^ 32) from fun hx => hnot16 hx.2)] at hR
    simp only [Option.some.injEq] at hR
    have hr := congrArg (fun q : Nat × Nat × Caches => q.1) hR
    simp only [ratioResult_fst] at hr
    rw [if_pos hinit0] at hr
    rw [← hr]
    decide

/-- Witness for C8: the Skylake clause of `c8_fallback_table` applied to a
Skylake platform with no direct crystal value: the resolver returns exactly
24,000,000 Hz. -/
theorem c8_fallback_table_witness :
    InternalCalcluateARTFrequencyIntel envC8w ⟨0, 0, 0⟩ false =
      some (24000000, 24000000, ⟨24000000, 24000000, 0⟩) ∧ (24000000 : Nat) = 24000000 :=
  ⟨by decide,
    (c8_fallback_table envC8w ⟨0, 0, 0⟩ rfl (by decide) (by decide) (by decide)).1
      (by decide) 24000000 24000000 ⟨24000000, 24000000, 0⟩ (by decide)⟩
